import Mathlib

set_option autoImplicit false

/-!
Shallow embedding of the byte-transfer core of `app/src/main/cpp/bytetransfer.cpp`:
the bounded `ByteBuffer` type (append-only write, random-offset read, clear) and
the process-wide registry consisting of one optional default (shared) buffer and a
map of named buffers, together with the JNI-exported and native-ABI entry points
that operate on it.

Bytes are modelled as `Nat`, byte regions as `List Nat`; `size_t` quantities are
`Nat` and JNI `jint` arguments are `Int`.  The C++ functions signal failure through
a boolean or a null array while distinguishing the failure branches by their log
messages; the embedding keeps those branches apart with an explicit error type.
Heap allocation is assumed to succeed (the model has no out-of-memory).
-/

/-- Failure branches of the byte-transfer operations, one per distinct
failure path in the C++ source. -/
inductive TransferError where
  | notInitialized
  | notFound
  | invalidArgument
  | underflow
  | overflow
  deriving DecidableEq, Repr

/-- `struct ByteBuffer`: a bounded byte store.  `data` models the `capacity`-byte
storage region, `size` the write cursor, `is_owner` the ownership flag. -/
structure ByteBuffer where
  data : List Nat
  size : Nat
  capacity : Nat
  is_owner : Bool
  deriving DecidableEq, Repr

/-- `ByteBuffer(size_t cap)`: allocates `cap` bytes, zero-fills them, `size = 0`,
ownership exclusive. -/
def ByteBuffer.create (cap : Nat) : ByteBuffer :=
  { data := List.replicate cap 0, size := 0, capacity := cap, is_owner := true }

/-- `ByteBuffer(uint8_t* external_data, size_t data_size)`: wraps a caller-owned
region; `capacity = size = data_size`, ownership borrowed. -/
def ByteBuffer.wrap (external_data : List Nat) : ByteBuffer :=
  { data := external_data, size := external_data.length,
    capacity := external_data.length, is_owner := false }

/-- `ByteBuffer::write`: rejects when `size + len > capacity`, otherwise
memcpys `src` at offset `size` and advances `size` by `len`.  The returned
buffer is the post-state (unchanged on failure). -/
def ByteBuffer.write (b : ByteBuffer) (src : List Nat) : Bool × ByteBuffer :=
  if b.size + src.length > b.capacity then
    (false, b)
  else
    (true,
      { b with
        data := b.data.take b.size ++ src ++ b.data.drop (b.size + src.length),
        size := b.size + src.length })

/-- `ByteBuffer::read` (a `const` method): fails when `offset + len > size`,
otherwise returns a copy of `len` bytes starting at `offset`. -/
def ByteBuffer.read (b : ByteBuffer) (len offset : Nat) : Option (List Nat) :=
  if offset + len > b.size then none
  else some ((b.data.drop offset).take len)

/-- `ByteBuffer::clear`: resets `size` to 0 and zero-fills the storage. -/
def ByteBuffer.clear (b : ByteBuffer) : ByteBuffer :=
  { b with size := 0, data := List.replicate b.capacity 0 }

/-- Well-formedness of the C++ representation: the cursor is within capacity and
the storage region has exactly `capacity` bytes. -/
def ByteBuffer.WF (b : ByteBuffer) : Prop :=
  b.size ≤ b.capacity ∧ b.data.length = b.capacity

instance (b : ByteBuffer) : Decidable b.WF := by
  unfold ByteBuffer.WF; infer_instance

/-- The process-wide registry state: `g_sharedBuffer` and `g_namedBuffers`
(`g_bufferPool` is never populated by any code path and is omitted). -/
structure Registry where
  shared : Option ByteBuffer
  named : String → Option ByteBuffer

/-- The pristine state before any initialization. -/
def Registry.empty : Registry := { shared := none, named := fun _ => none }

/-- `nativeInitializeByteTransfer`: (re)creates the default buffer. -/
def nativeInitializeByteTransfer (st : Registry) (bufferSize : Nat) : Bool × Registry :=
  (true, { st with shared := some (ByteBuffer.create bufferSize) })

/-- `nativeCreateNamedBuffer`: creates or replaces the named entry. -/
def nativeCreateNamedBuffer (st : Registry) (name : String) (cap : Nat) : Bool × Registry :=
  (true,
    { st with named := fun k => if k = name then some (ByteBuffer.create cap) else st.named k })

/-- `nativeWriteBytes`: appends to the default buffer; fails when it is absent. -/
def nativeWriteBytes (st : Registry) (payload : List Nat) :
    Except TransferError Unit × Registry :=
  match st.shared with
  | none => (.error .notInitialized, st)
  | some b =>
    let r := b.write payload
    (if r.1 then .ok () else .error .overflow, { st with shared := some r.2 })

/-- `nativeWriteBytesToNamed`: appends to a named buffer; fails when absent. -/
def nativeWriteBytesToNamed (st : Registry) (name : String) (payload : List Nat) :
    Except TransferError Unit × Registry :=
  match st.named name with
  | none => (.error .notFound, st)
  | some b =>
    let r := b.write payload
    (if r.1 then .ok () else .error .overflow,
      { st with named := fun k => if k = name then some r.2 else st.named k })

/-- `nativeReadBytes`: checks the default buffer, then the `length`/`offset`
arguments, then delegates to `ByteBuffer::read`. -/
def nativeReadBytes (st : Registry) (length offset : Int) :
    Except TransferError (List Nat) × Registry :=
  match st.shared with
  | none => (.error .notInitialized, st)
  | some b =>
    if length ≤ 0 ∨ offset < 0 then (.error .invalidArgument, st)
    else
      match b.read length.toNat offset.toNat with
      | none => (.error .underflow, st)
      | some bs => (.ok bs, st)

/-- `nativeReadBytesFromNamed`: looks the name up first, then checks the
`length`/`offset` arguments, then delegates to `ByteBuffer::read`. -/
def nativeReadBytesFromNamed (st : Registry) (name : String) (length offset : Int) :
    Except TransferError (List Nat) × Registry :=
  match st.named name with
  | none => (.error .notFound, st)
  | some b =>
    if length ≤ 0 ∨ offset < 0 then (.error .invalidArgument, st)
    else
      match b.read length.toNat offset.toNat with
      | none => (.error .underflow, st)
      | some bs => (.ok bs, st)

/-- `nativeClearBuffer`: clears the resolved buffer; silent no-op when the
target does not resolve. -/
def nativeClearBuffer (st : Registry) (name : Option String) : Registry :=
  match name with
  | none =>
    match st.shared with
    | some b => { st with shared := some b.clear }
    | none => st
  | some k =>
    match st.named k with
    | some b => { st with named := fun m => if m = k then some b.clear else st.named m }
    | none => st

/-- `nativeCleanup`: resets the registry to the pristine state. -/
def nativeCleanup (_st : Registry) : Registry := Registry.empty

/-- `bytetransfer_write_from_v8`: native-ABI write, optional buffer name. -/
def bytetransfer_write_from_v8 (st : Registry) (payload : List Nat)
    (buffer_name : Option String) : Bool × Registry :=
  match buffer_name with
  | some k =>
    match st.named k with
    | some b =>
      let r := b.write payload
      (r.1, { st with named := fun m => if m = k then some r.2 else st.named m })
    | none => (false, st)
  | none =>
    match st.shared with
    | some b =>
      let r := b.write payload
      (r.1, { st with shared := some r.2 })
    | none => (false, st)

/-- `bytetransfer_read_for_v8`: native-ABI read with `size_t` length/offset and
no argument validation; `some bs` models `true` with `bs` copied into `dest`. -/
def bytetransfer_read_for_v8 (st : Registry) (length offset : Nat)
    (buffer_name : Option String) : Option (List Nat) :=
  match buffer_name with
  | some k =>
    match st.named k with
    | some b => b.read length offset
    | none => none
  | none =>
    match st.shared with
    | some b => b.read length offset
    | none => none

/-- `bytetransfer_get_info`: reports `(size, capacity)` of the resolved buffer. -/
def bytetransfer_get_info (st : Registry) (buffer_name : Option String) :
    Option (Nat × Nat) :=
  match (match buffer_name with | some k => st.named k | none => st.shared) with
  | some b => some (b.size, b.capacity)
  | none => none

/-- A registry holding only an initialized default buffer of capacity 4. -/
def defaultOnlySt : Registry :=
  { shared := some (ByteBuffer.create 4), named := fun _ => none }

/-! ## Helper lemmas -/

lemma write_full (b : ByteBuffer) (p : List Nat) (h : b.size + p.length > b.capacity) :
    b.write p = (false, b) := by
  unfold ByteBuffer.write
  rw [if_pos h]

lemma write_fits (b : ByteBuffer) (p : List Nat) (h : b.size + p.length ≤ b.capacity) :
    b.write p =
      (true,
        { b with
          data := b.data.take b.size ++ p ++ b.data.drop (b.size + p.length),
          size := b.size + p.length }) := by
  unfold ByteBuffer.write
  rw [if_neg (by omega)]

lemma read_ok (b : ByteBuffer) (len off : Nat) (h : off + len ≤ b.size) :
    b.read len off = some ((b.data.drop off).take len) := by
  unfold ByteBuffer.read
  rw [if_neg (by omega)]

lemma read_underflow (b : ByteBuffer) (len off : Nat) (h : off + len > b.size) :
    b.read len off = none := by
  unfold ByteBuffer.read
  rw [if_pos h]

lemma nativeReadBytes_state_id (st : Registry) (length offset : Int) :
    (nativeReadBytes st length offset).2 = st := by
  unfold nativeReadBytes
  cases st.shared with
  | none => rfl
  | some b =>
    dsimp only
    split
    · rfl
    · rcases b.read length.toNat offset.toNat with _ | bs <;> rfl

lemma nativeReadBytesFromNamed_state_id (st : Registry) (name : String)
    (length offset : Int) :
    (nativeReadBytesFromNamed st name length offset).2 = st := by
  unfold nativeReadBytesFromNamed
  cases st.named name with
  | none => rfl
  | some b =>
    dsimp only
    split
    · rfl
    · rcases b.read length.toNat offset.toNat with _ | bs <;> rfl

/-! ## Claims -/

/-- C1: for every well-formed buffer and payload `p`, if `size + len p > capacity`
then `write p` fails and leaves the buffer completely unchanged; otherwise it
succeeds, copies `p` at offset `size` (preserving the bytes below `size` and the
tail beyond `size + len p`), and advances `size` by exactly `len p`. -/
theorem write_overflow_or_append (b : ByteBuffer) (p : List Nat) (hWF : b.WF) :
    (b.size + p.length > b.capacity → b.write p = (false, b)) ∧
    (b.size + p.length ≤ b.capacity →
      (b.write p).1 = true ∧
      (b.write p).2.size = b.size + p.length ∧
      (b.write p).2.capacity = b.capacity ∧
      ((b.write p).2.data.drop b.size).take p.length = p ∧
      (b.write p).2.data.take b.size = b.data.take b.size ∧
      (b.write p).2.data.drop (b.size + p.length) = b.data.drop (b.size + p.length)) := by
  obtain ⟨hs, hd⟩ := hWF
  constructor
  · exact write_full b p
  · intro h
    rw [write_fits b p h]
    have hlen_take : (b.data.take b.size).length = b.size := by
      rw [List.length_take]; omega
    have hlen_takep : (b.data.take b.size ++ p).length = b.size + p.length := by
      rw [List.length_append, hlen_take]
    refine ⟨rfl, rfl, rfl, ?_, ?_, ?_⟩
    · show ((b.data.take b.size ++ p ++ b.data.drop (b.size + p.length)).drop
        b.size).take p.length = p
      rw [List.append_assoc, List.drop_left' hlen_take,
        List.take_left' (rfl : p.length = p.length)]
    · show (b.data.take b.size ++ p ++ b.data.drop (b.size + p.length)).take b.size =
        b.data.take b.size
      rw [List.append_assoc, List.take_left' hlen_take]
    · show (b.data.take b.size ++ p ++ b.data.drop (b.size + p.length)).drop
        (b.size + p.length) = b.data.drop (b.size + p.length)
      rw [List.drop_left' hlen_takep]

theorem write_overflow_or_append_witness :
    ((ByteBuffer.create 4).write [7, 8]).1 = true ∧
    ((ByteBuffer.create 4).write [7, 8]).2.size = 0 + 2 :=
  ⟨((write_overflow_or_append (ByteBuffer.create 4) [7, 8] (by decide)).2 (by decide)).1,
   ((write_overflow_or_append (ByteBuffer.create 4) [7, 8] (by decide)).2 (by decide)).2.1⟩

/-- C2: on a freshly created buffer of capacity `c > 0`, writing any payload `p`
with `len p ≤ c` succeeds, and `read (len p) 0` then returns exactly `p`. -/
theorem create_write_read_roundtrip (c : Nat) (p : List Nat)
    (hc : 0 < c) (hp : p.length ≤ c) :
    ((ByteBuffer.create c).write p).1 = true ∧
    ((ByteBuffer.create c).write p).2.read p.length 0 = some p := by
  have h1 : (ByteBuffer.create c).size + p.length ≤ (ByteBuffer.create c).capacity := by
    show 0 + p.length ≤ c
    omega
  rw [write_fits _ _ h1]
  refine ⟨rfl, ?_⟩
  rw [read_ok _ _ _ (le_refl _)]
  show some ((((List.replicate c 0).take 0 ++ p ++
    (List.replicate c 0).drop (0 + p.length)).drop 0).take p.length) = some p
  rw [List.take_zero, List.nil_append, List.drop_zero,
    List.take_left' (rfl : p.length = p.length)]

theorem create_write_read_roundtrip_witness :
    ((ByteBuffer.create 3).write [1, 2]).1 = true ∧
    ((ByteBuffer.create 3).write [1, 2]).2.read 2 0 = some [1, 2] :=
  create_write_read_roundtrip 3 [1, 2] (by decide) (by decide)

/-- C3: a read request with `offset + length > size` fails with underflow, and a
read (failing or succeeding) never mutates any state: `ByteBuffer::read` is
observationally pure and both registry read entry points return the registry
unchanged. -/
theorem read_underflow_pure (b : ByteBuffer) (len off : Nat) (st : Registry)
    (name : String) (length offset : Int) (h : off + len > b.size) :
    b.read len off = none ∧
    (∀ b', st.shared = some b' → ¬(length ≤ 0 ∨ offset < 0) →
      offset.toNat + length.toNat > b'.size →
      (nativeReadBytes st length offset).1 = .error .underflow) ∧
    (nativeReadBytes st length offset).2 = st ∧
    (nativeReadBytesFromNamed st name length offset).2 = st := by
  refine ⟨read_underflow b len off h, fun b' hsh hargs hovf => ?_,
    nativeReadBytes_state_id st length offset,
    nativeReadBytesFromNamed_state_id st name length offset⟩
  unfold nativeReadBytes
  rw [hsh]
  dsimp only
  rw [if_neg hargs, read_underflow b' length.toNat offset.toNat hovf]

theorem read_underflow_pure_witness :
    (ByteBuffer.create 4).read 1 0 = none ∧
    (nativeReadBytes defaultOnlySt 1 0).1 = .error .underflow ∧
    (nativeReadBytesFromNamed defaultOnlySt "x" 1 0).2 = defaultOnlySt :=
  ⟨(read_underflow_pure (ByteBuffer.create 4) 1 0 defaultOnlySt "x" 1 0 (by decide)).1,
   (read_underflow_pure (ByteBuffer.create 4) 1 0 defaultOnlySt "x" 1 0
      (by decide)).2.1 (ByteBuffer.create 4) (by rfl) (by decide) (by decide),
   (read_underflow_pure (ByteBuffer.create 4) 1 0 defaultOnlySt "x" 1 0
      (by decide)).2.2.2⟩

/-- C4: `size ≤ capacity` holds after both constructors (create-with-capacity and
wrap-existing-region) and is preserved by `write` and `clear` (`read` and `info`
do not produce a buffer state); a write that would exceed capacity is rejected
whole — `size` stays put and the call reports failure — never truncated. -/
theorem size_le_capacity_invariant (c : Nat) (ext : List Nat) (b : ByteBuffer)
    (p : List Nat) (hb : b.size ≤ b.capacity) :
    (ByteBuffer.create c).size ≤ (ByteBuffer.create c).capacity ∧
    (ByteBuffer.wrap ext).size ≤ (ByteBuffer.wrap ext).capacity ∧
    (b.write p).2.size ≤ (b.write p).2.capacity ∧
    b.clear.size ≤ b.clear.capacity ∧
    (b.size + p.length > b.capacity →
      (b.write p).1 = false ∧ (b.write p).2.size = b.size) := by
  refine ⟨Nat.zero_le _, le_refl _, ?_, Nat.zero_le _, ?_⟩
  · by_cases h : b.size + p.length > b.capacity
    · rw [write_full b p h]; exact hb
    · rw [write_fits b p (by omega)]
      show b.size + p.length ≤ b.capacity
      omega
  · intro h
    rw [write_full b p h]
    exact ⟨rfl, rfl⟩

theorem size_le_capacity_invariant_witness :
    ((ByteBuffer.create 2).write [5]).2.size ≤ ((ByteBuffer.create 2).write [5]).2.capacity :=
  (size_le_capacity_invariant 2 [9] (ByteBuffer.create 2) [5] (by decide)).2.2.1


/-- C5 counterexample: a zero-length read (`length ≤ 0`) through the native-ABI
read entry point `bytetransfer_read_for_v8` succeeds — it is not rejected, since
that entry point performs no argument validation. -/
theorem v8_read_zero_length_succeeds :
    (0 : Nat) ≤ 0 ∧ bytetransfer_read_for_v8 defaultOnlySt 0 0 none = some [] := by
  exact ⟨le_refl 0, rfl⟩

/-- C5 (amended): on the JNI read entry points (default and named), a request
with `length ≤ 0` or `offset < 0` never succeeds, and is rejected with
`InvalidArgument` whenever the target buffer resolves (when it does not, the
resolution failure `NotInitialized`/`NotFound` is reported instead, as target
resolution precedes argument validation); the native-ABI v8 read path performs
no such validation. -/
theorem jni_read_rejects_invalid_args (st : Registry) (name : String)
    (length offset : Int) (h : length ≤ 0 ∨ offset < 0) :
    (∀ bs, (nativeReadBytes st length offset).1 ≠ .ok bs) ∧
    (∀ bs, (nativeReadBytesFromNamed st name length offset).1 ≠ .ok bs) ∧
    (st.shared.isSome → (nativeReadBytes st length offset).1 = .error .invalidArgument) ∧
    ((st.named name).isSome →
      (nativeReadBytesFromNamed st name length offset).1 = .error .invalidArgument) := by
  refine ⟨fun bs => ?_, fun bs => ?_, fun hsome => ?_, fun hsome => ?_⟩
  · unfold nativeReadBytes
    cases hst : st.shared with
    | none => exact fun hcon => Except.noConfusion hcon
    | some b =>
      dsimp only
      rw [if_pos h]
      exact fun hcon => Except.noConfusion hcon
  · unfold nativeReadBytesFromNamed
    cases hst : st.named name with
    | none => exact fun hcon => Except.noConfusion hcon
    | some b =>
      dsimp only
      rw [if_pos h]
      exact fun hcon => Except.noConfusion hcon
  · unfold nativeReadBytes
    cases hst : st.shared with
    | none => rw [hst] at hsome; simp at hsome
    | some b =>
      dsimp only
      rw [if_pos h]
  · unfold nativeReadBytesFromNamed
    cases hst : st.named name with
    | none => rw [hst] at hsome; simp at hsome
    | some b =>
      dsimp only
      rw [if_pos h]

theorem jni_read_rejects_invalid_args_witness :
    (nativeReadBytes defaultOnlySt 0 0).1 = .error .invalidArgument :=
  (jni_read_rejects_invalid_args defaultOnlySt "x" 0 0 (Or.inl (by decide))).2.2.1 rfl

/-- C6: `nativeCreateNamedBuffer` always succeeds — in particular it never fails
because the name already exists — and installs a fresh zero-sized buffer of the
requested capacity under the name, so `info` on it afterwards reports `(0, c)`. -/
theorem create_named_replaces (st : Registry) (n : String) (c : Nat) :
    (nativeCreateNamedBuffer st n c).1 = true ∧
    (nativeCreateNamedBuffer st n c).2.named n = some (ByteBuffer.create c) ∧
    (ByteBuffer.create c).size = 0 ∧
    (ByteBuffer.create c).capacity = c ∧
    bytetransfer_get_info (nativeCreateNamedBuffer st n c).2 (some n) = some (0, c) := by
  refine ⟨rfl, ?_, rfl, rfl, ?_⟩
  · show (if n = n then some (ByteBuffer.create c) else st.named n) = some (ByteBuffer.create c)
    rw [if_pos rfl]
  · unfold bytetransfer_get_info nativeCreateNamedBuffer
    dsimp only
    rw [if_pos rfl]
    rfl

/-- C7: `clear` on a target that resolves resets that buffer's `size` to 0 and
zero-fills its storage with capacity unchanged (so `info` on it then reports
`(0, capacity)`), leaving everything else alone; on a target that does not
resolve (absent name, or uninitialized default) it is a silent no-op leaving the
whole registry state identical. -/
theorem clear_resolves_or_noop (st : Registry) (k : String) :
    (∀ bd, st.shared = some bd →
      (nativeClearBuffer st none).shared = some bd.clear ∧
      (nativeClearBuffer st none).named = st.named ∧
      bytetransfer_get_info (nativeClearBuffer st none) none = some (0, bd.capacity)) ∧
    (st.shared = none → nativeClearBuffer st none = st) ∧
    (∀ b, st.named k = some b →
      (nativeClearBuffer st (some k)).named k = some b.clear ∧
      (∀ m, m ≠ k → (nativeClearBuffer st (some k)).named m = st.named m) ∧
      (nativeClearBuffer st (some k)).shared = st.shared ∧
      bytetransfer_get_info (nativeClearBuffer st (some k)) (some k) = some (0, b.capacity)) ∧
    (st.named k = none → nativeClearBuffer st (some k) = st) ∧
    (∀ b : ByteBuffer, b.clear.size = 0 ∧ b.clear.capacity = b.capacity ∧
      b.clear.data = List.replicate b.capacity 0) := by
  refine ⟨fun bd hbd => ?_, fun hnone => ?_, fun b hb => ?_, fun hnone => ?_,
    fun b => ⟨rfl, rfl, rfl⟩⟩
  · unfold nativeClearBuffer
    rw [hbd]
    exact ⟨rfl, rfl, rfl⟩
  · unfold nativeClearBuffer
    rw [hnone]
  · unfold nativeClearBuffer
    dsimp only
    rw [hb]
    refine ⟨?_, fun m hm => ?_, rfl, ?_⟩
    · show (if k = k then some b.clear else st.named k) = some b.clear
      rw [if_pos rfl]
    · show (if m = k then some b.clear else st.named m) = st.named m
      rw [if_neg hm]
    · unfold bytetransfer_get_info
      dsimp only
      show (match (if k = k then some b.clear else st.named k) with
        | some bb => some (bb.size, bb.capacity)
        | none => none) = some (0, b.capacity)
      rw [if_pos rfl]
      rfl
  · unfold nativeClearBuffer
    dsimp only
    rw [hnone]

theorem clear_resolves_or_noop_witness :
    (nativeClearBuffer defaultOnlySt none).shared = some (ByteBuffer.create 4).clear ∧
    nativeClearBuffer Registry.empty (some "x") = Registry.empty :=
  ⟨((clear_resolves_or_noop defaultOnlySt "x").1 (ByteBuffer.create 4) rfl).1,
   (clear_resolves_or_noop Registry.empty "x").2.2.2.1 rfl⟩

/-- C8: after `nativeCleanup` the registry is pristine (no default buffer, empty
name map), cleanup is idempotent, and every subsequent write/read/info on any
name fails with `NotFound` while the default-buffer variants fail with
`NotInitialized`. -/
theorem cleanup_pristine (st : Registry) (n : String) (payload : List Nat)
    (length offset : Int) :
    (nativeCleanup st).shared = none ∧
    (∀ m, (nativeCleanup st).named m = none) ∧
    nativeCleanup (nativeCleanup st) = nativeCleanup st ∧
    (nativeWriteBytes (nativeCleanup st) payload).1 = .error .notInitialized ∧
    (nativeWriteBytesToNamed (nativeCleanup st) n payload).1 = .error .notFound ∧
    (nativeReadBytes (nativeCleanup st) length offset).1 = .error .notInitialized ∧
    (nativeReadBytesFromNamed (nativeCleanup st) n length offset).1 = .error .notFound ∧
    bytetransfer_get_info (nativeCleanup st) none = none ∧
    bytetransfer_get_info (nativeCleanup st) (some n) = none :=
  ⟨rfl, fun _ => rfl, rfl, rfl, rfl, rfl, rfl, rfl, rfl⟩

/-- C9: a write targeting named entry `a` leaves the default buffer and every
other named entry — in particular a distinct entry `b` — unchanged, whether the
write succeeds or fails. -/
theorem named_write_isolation (st : Registry) (a b : String) (payload : List Nat)
    (ba bb : ByteBuffer) (ha : st.named a = some ba) (hb : st.named b = some bb)
    (hab : b ≠ a) :
    (nativeWriteBytesToNamed st a payload).2.shared = st.shared ∧
    (nativeWriteBytesToNamed st a payload).2.named b = st.named b ∧
    (∀ m, m ≠ a → (nativeWriteBytesToNamed st a payload).2.named m = st.named m) := by
  unfold nativeWriteBytesToNamed
  rw [ha]
  refine ⟨rfl, ?_, fun m hm => ?_⟩
  · show (if b = a then some (ba.write payload).2 else st.named b) = st.named b
    rw [if_neg hab]
  · show (if m = a then some (ba.write payload).2 else st.named m) = st.named m
    rw [if_neg hm]

/-- A registry with two distinct named entries and no default buffer. -/
def twoNamedSt : Registry :=
  { shared := none,
    named := fun m =>
      if m = "a" then some (ByteBuffer.create 2)
      else if m = "b" then some (ByteBuffer.create 3)
      else none }

theorem named_write_isolation_witness :
    (nativeWriteBytesToNamed twoNamedSt "a" [1]).2.named "b" = twoNamedSt.named "b" :=
  (named_write_isolation twoNamedSt "a" "b" [1] (ByteBuffer.create 2) (ByteBuffer.create 3)
    (by decide) (by decide) (by decide)).2.1

/-- A buffer of capacity 3 already holding one written byte. -/
def preloadedBuf : ByteBuffer := ((ByteBuffer.create 3).write [7]).2

/-- C10 counterexample: on a buffer that already holds data (here one byte `7`),
writing `[1]` and then `[2]` both succeed, yet `read (1 + 1) 0` returns the
pre-existing byte followed by the first payload, not `[1] ++ [2]`. -/
theorem seq_write_read_from_zero_cex :
    ((preloadedBuf.write [1]).1 = true) ∧
    (((preloadedBuf.write [1]).2.write [2]).1 = true) ∧
    ((preloadedBuf.write [1]).2.write [2]).2.read (1 + 1) 0 = some [7, 1] ∧
    some [7, 1] ≠ some ([1] ++ [2]) := by
  refine ⟨rfl, rfl, rfl, ?_⟩
  decide

/-- C10 (amended): sequential successful writes concatenate — for every
well-formed buffer `b` and payloads `p` then `q`, if `write p` and then `write q`
both succeed, the bytes below the original cursor and the bytes written by `p`
are preserved unchanged, and `read (len p + len q) s₀` at the original cursor
position `s₀ = b.size` returns exactly `p ++ q`; a successful write never
overwrites previously written data. -/
theorem seq_writes_concat (b : ByteBuffer) (p q : List Nat) (hWF : b.WF)
    (hp : (b.write p).1 = true) (hq : ((b.write p).2.write q).1 = true) :
    ((b.write p).2.write q).2.read (p.length + q.length) b.size = some (p ++ q) ∧
    ((b.write p).2.write q).2.data.take b.size = b.data.take b.size := by
  obtain ⟨hs, hd⟩ := hWF
  have h1 : b.size + p.length ≤ b.capacity := by
    by_contra hc
    rw [write_full b p (by omega)] at hp
    simp at hp
  have e1 : b.write p =
      (true, ⟨b.data.take b.size ++ p ++ b.data.drop (b.size + p.length),
        b.size + p.length, b.capacity, b.is_owner⟩) := write_fits b p h1
  have h2 : b.size + p.length + q.length ≤ b.capacity := by
    by_contra hc
    rw [e1] at hq
    rw [write_full ⟨b.data.take b.size ++ p ++ b.data.drop (b.size + p.length),
      b.size + p.length, b.capacity, b.is_owner⟩ q
      (show b.size + p.length + q.length > b.capacity by omega)] at hq
    simp at hq
  have hlen_take : (b.data.take b.size).length = b.size := by
    rw [List.length_take]; omega
  have hlen_takep : (b.data.take b.size ++ p).length = b.size + p.length := by
    rw [List.length_append, hlen_take]
  have e2 : ((b.write p).2.write q) =
      (true, ⟨(b.data.take b.size ++ p) ++ q ++
          (b.data.take b.size ++ p ++ b.data.drop (b.size + p.length)).drop
            (b.size + p.length + q.length),
        b.size + p.length + q.length, b.capacity, b.is_owner⟩) := by
    rw [e1]
    have := write_fits ⟨b.data.take b.size ++ p ++ b.data.drop (b.size + p.length),
      b.size + p.length, b.capacity, b.is_owner⟩ q
      (show b.size + p.length + q.length ≤ b.capacity from h2)
    rw [this]
    have htk : (b.data.take b.size ++ p ++ b.data.drop (b.size + p.length)).take
        (b.size + p.length) = b.data.take b.size ++ p := List.take_left' hlen_takep
    rw [htk]
  rw [e2]
  constructor
  · have hread : (⟨(b.data.take b.size ++ p) ++ q ++
          (b.data.take b.size ++ p ++ b.data.drop (b.size + p.length)).drop
            (b.size + p.length + q.length),
        b.size + p.length + q.length, b.capacity, b.is_owner⟩ : ByteBuffer).read
          (p.length + q.length) b.size =
        some (((((b.data.take b.size ++ p) ++ q ++
          (b.data.take b.size ++ p ++ b.data.drop (b.size + p.length)).drop
            (b.size + p.length + q.length))).drop b.size).take (p.length + q.length)) :=
      read_ok _ _ _ (show b.size + (p.length + q.length) ≤ b.size + p.length + q.length
        by omega)
    rw [hread]
    have hflat : (b.data.take b.size ++ p) ++ q ++
        (b.data.take b.size ++ p ++ b.data.drop (b.size + p.length)).drop
          (b.size + p.length + q.length) =
        b.data.take b.size ++ ((p ++ q) ++
          (b.data.take b.size ++ p ++ b.data.drop (b.size + p.length)).drop
            (b.size + p.length + q.length)) := by
      simp only [List.append_assoc]
    rw [hflat, List.drop_left' hlen_take,
      List.take_left' (by rw [List.length_append] : (p ++ q).length = p.length + q.length)]
  · show ((b.data.take b.size ++ p) ++ q ++
        (b.data.take b.size ++ p ++ b.data.drop (b.size + p.length)).drop
          (b.size + p.length + q.length)).take b.size = b.data.take b.size
    have hflat : (b.data.take b.size ++ p) ++ q ++
        (b.data.take b.size ++ p ++ b.data.drop (b.size + p.length)).drop
          (b.size + p.length + q.length) =
        b.data.take b.size ++ (p ++ (q ++
          (b.data.take b.size ++ p ++ b.data.drop (b.size + p.length)).drop
            (b.size + p.length + q.length))) := by
      simp only [List.append_assoc]
    rw [hflat, List.take_left' hlen_take]

theorem seq_writes_concat_witness :
    (((ByteBuffer.create 2).write [1]).2.write [2]).2.read
      ((1 : Nat) + (1 : Nat)) (ByteBuffer.create 2).size = some ([1] ++ [2]) := by
  have h := (seq_writes_concat (ByteBuffer.create 2) [1] [2]
    (by decide) (by decide) (by decide)).1
  exact h
